import Mathlib

/-!
Shallow embedding of the core of the apple-health-dashboard pipeline
(src/src/models.py, src/src/parser.py, src/src/analyzer.py) and proofs of the
behavioural claims about it.

Modelling conventions:
* Python `datetime` values are rationals counting seconds, so
  `(b - a).total_seconds() / 60.0` becomes `(b - a) / 60`.
* Python floats are rationals (the claims are about exact arithmetic
  relationships, not rounding).
* Python dicts that are iterated in insertion order are association lists;
  `d[k] = v` is `dictInsert`, which replaces in place or appends.
* In-place mutation of a `Workout` becomes a function returning the updated
  record; mutation of a list of workouts becomes `List.map`.
* The repository spells the workout distance field `distance_miles` in
  `models.py` and `distance_km` in `parser.py`; the embedding uses the
  single field `distance_miles` (the name declared on the dataclass) for
  the one distance slot both files manipulate.
-/

namespace AppleHealth

/-- One heart-rate sample (models.py `HeartRateRecord`). -/
structure HeartRateRecord where
  timestamp : ℚ
  bpm : ℚ
  source_name : String := ""
  deriving Repr, DecidableEq

/-- A workout interval with its enrichment fields (models.py `Workout`). -/
structure Workout where
  start_date : ℚ
  end_date : ℚ
  duration_minutes : ℚ
  distance_miles : ℚ
  calories : ℚ
  source_name : String := ""
  workout_type : String := "Cycling"
  elevation_gain_ft : Option ℚ := none
  avg_heart_rate : Option ℚ := none
  max_heart_rate : Option ℚ := none
  min_heart_rate : Option ℚ := none
  deriving Repr, DecidableEq

/-- models.py `Workout.__post_init__`: clamp negative distance and duration to 0. -/
def Workout.post_init (w : Workout) : Workout :=
  { w with
    distance_miles := if w.distance_miles < 0 then 0 else w.distance_miles,
    duration_minutes := if w.duration_minutes < 0 then 0 else w.duration_minutes }

/-- models.py `Workout.duration_hours`. -/
def Workout.duration_hours (w : Workout) : ℚ :=
  w.duration_minutes / 60

/-- models.py `Workout.avg_speed_mph`: per-workout speed, 0 on zero duration. -/
def Workout.avg_speed_mph (w : Workout) : ℚ :=
  if w.duration_hours > 0 then w.distance_miles / w.duration_hours else 0

/-- models.py `WorkoutSummary`: the aggregate fields, all defaulting to 0. -/
structure WorkoutSummary where
  total_workouts : ℕ := 0
  total_distance_miles : ℚ := 0
  total_duration_minutes : ℚ := 0
  total_calories : ℚ := 0
  total_elevation_gain_ft : ℚ := 0
  avg_distance_miles : ℚ := 0
  avg_duration_minutes : ℚ := 0
  avg_speed_mph : ℚ := 0
  avg_calories : ℚ := 0
  avg_elevation_gain_ft : ℚ := 0
  max_distance_miles : ℚ := 0
  max_duration_minutes : ℚ := 0
  max_elevation_gain_ft : ℚ := 0
  deriving Repr, DecidableEq

/-- models.py `WorkoutSummary.calculate_stats`, as a function from the workout
group to the summary it leaves behind.  An empty group takes the early-return
branch and keeps every field at its default. -/
def calculate_stats (workouts : List Workout) : WorkoutSummary :=
  match workouts with
  | [] => {}
  | w :: ws =>
    let l := w :: ws
    let total_workouts : ℕ := l.length
    let total_distance_miles : ℚ := (l.map Workout.distance_miles).sum
    let total_duration_minutes : ℚ := (l.map Workout.duration_minutes).sum
    let total_calories : ℚ := (l.map Workout.calories).sum
    let total_elevation_gain_ft : ℚ := (l.filterMap Workout.elevation_gain_ft).sum
    let avg_distance_miles : ℚ :=
      if 0 < total_workouts then total_distance_miles / (total_workouts : ℚ) else 0
    let avg_duration_minutes : ℚ :=
      if 0 < total_workouts then total_duration_minutes / (total_workouts : ℚ) else 0
    let avg_calories : ℚ :=
      if 0 < total_workouts then total_calories / (total_workouts : ℚ) else 0
    let workouts_with_elevation := l.filter (fun x => x.elevation_gain_ft.isSome)
    let avg_elevation_gain_ft : ℚ :=
      if 0 < total_workouts ∧ workouts_with_elevation ≠ [] then
        (workouts_with_elevation.filterMap Workout.elevation_gain_ft).sum /
          (workouts_with_elevation.length : ℚ)
      else 0
    let total_hours : ℚ := total_duration_minutes / 60
    let avg_speed_mph : ℚ :=
      if 0 < total_hours then total_distance_miles / total_hours else 0
    let max_distance_miles : ℚ := (ws.map Workout.distance_miles).foldl max w.distance_miles
    let max_duration_minutes : ℚ :=
      (ws.map Workout.duration_minutes).foldl max w.duration_minutes
    let max_elevation_gain_ft : ℚ :=
      match l.filterMap Workout.elevation_gain_ft with
      | [] => 0
      | e :: es => es.foldl max e
    { total_workouts := total_workouts,
      total_distance_miles := total_distance_miles,
      total_duration_minutes := total_duration_minutes,
      total_calories := total_calories,
      total_elevation_gain_ft := total_elevation_gain_ft,
      avg_distance_miles := avg_distance_miles,
      avg_duration_minutes := avg_duration_minutes,
      avg_speed_mph := avg_speed_mph,
      avg_calories := avg_calories,
      avg_elevation_gain_ft := avg_elevation_gain_ft,
      max_distance_miles := max_distance_miles,
      max_duration_minutes := max_duration_minutes,
      max_elevation_gain_ft := max_elevation_gain_ft }

/-- Timestamp order on heart-rate records, the sort key of
`hr_records.sort(key=lambda r: r.timestamp)` and
`sorted(hr_records, key=lambda r: r.timestamp)` in parser.py. -/
def tsLE (a b : HeartRateRecord) : Prop :=
  a.timestamp ≤ b.timestamp

instance : DecidableRel tsLE :=
  fun a b => inferInstanceAs (Decidable (a.timestamp ≤ b.timestamp))

instance : IsTotal HeartRateRecord tsLE :=
  ⟨fun a b => le_total a.timestamp b.timestamp⟩

instance : IsTrans HeartRateRecord tsLE :=
  ⟨fun _ _ _ hab hbc => le_trans hab hbc⟩

/-- The inclusive window test `workout.start_date <= t <= workout.end_date`
used by parser.py for heart-rate, distance and calorie correlation. -/
def inWorkoutWindow (w : Workout) (t : ℚ) : Bool :=
  decide (w.start_date ≤ t ∧ t ≤ w.end_date)

/-- parser.py `match_heart_rate_to_workouts`, restricted to one workout:
sort all records by timestamp, keep those inside the inclusive window, and if
any remain set avg/max/min heart rate; otherwise leave the workout untouched.
Python computes `max(bpms)`/`min(bpms)` on the non-empty list, i.e. a fold of
the binary max/min over the first element. -/
def match_heart_rate_to_workout (hr_records : List HeartRateRecord) (w : Workout) : Workout :=
  let hr_records_sorted := List.insertionSort tsLE hr_records
  let workout_hrs := hr_records_sorted.filter (fun hr => inWorkoutWindow w hr.timestamp)
  match workout_hrs.map HeartRateRecord.bpm with
  | [] => w
  | b :: bs =>
    { w with
      avg_heart_rate := some ((b :: bs).sum / ((b :: bs).length : ℚ)),
      max_heart_rate := some (bs.foldl max b),
      min_heart_rate := some (bs.foldl min b) }

/-- parser.py `match_heart_rate_to_workouts` over the whole workout list
(in-place mutation becomes `List.map`). -/
def match_heart_rate_to_workouts (workouts : List Workout) (hr_records : List HeartRateRecord) :
    List Workout :=
  workouts.map (match_heart_rate_to_workout hr_records)

/-- The membership test `min_bpm <= current_hr.bpm < max_bpm` of
parser.py `calculate_hr_zone_time` (zone bounds are ints there). -/
def zoneContains (range : ℤ × ℤ) (bpm : ℚ) : Bool :=
  decide ((range.1 : ℚ) ≤ bpm ∧ bpm < (range.2 : ℚ))

/-- The inner `for zone_name, (min_bpm, max_bpm) in zone_ranges.items(): ...
break` loop: the name of the first zone in configured order whose range
contains the value, if any. -/
def zoneFirstMatch (zone_ranges : List (String × ℤ × ℤ)) (bpm : ℚ) : Option String :=
  (zone_ranges.find? (fun z => zoneContains z.2 bpm)).map Prod.fst

/-- Python `zone_times[zone_name] += time_diff` on the accumulator dict. -/
def addZoneTime (acc : List (String × ℚ)) (name : String) (t : ℚ) : List (String × ℚ) :=
  acc.map (fun q => if q.1 = name then (q.1, q.2 + t) else q)

/-- One iteration of the adjacent-pair loop in `calculate_hr_zone_time`:
attribute the elapsed minutes of the pair to the first matching zone of the
earlier sample, or drop them when no zone matches. -/
def zoneStep (zone_ranges : List (String × ℤ × ℤ)) (acc : List (String × ℚ))
    (p : HeartRateRecord × HeartRateRecord) : List (String × ℚ) :=
  match zoneFirstMatch zone_ranges p.1.bpm with
  | some name => addZoneTime acc name ((p.2.timestamp - p.1.timestamp) / 60)
  | none => acc

/-- The in-window samples of a workout, sorted by timestamp — the
`workout_hrs` list of `calculate_hr_zone_time` after its `sort` call. -/
def workoutHrsSorted (hr_records : List HeartRateRecord) (w : Workout) :
    List HeartRateRecord :=
  List.insertionSort tsLE (hr_records.filter (fun hr => inWorkoutWindow w hr.timestamp))

/-- parser.py `calculate_hr_zone_time`: filter to the window, early-return the
all-zero table when nothing remains, otherwise sort and fold the adjacent-pair
loop (`for i in range(len(workout_hrs) - 1)` is the zip with the tail) over
the zero-initialised zone table. -/
def calculate_hr_zone_time (hr_records : List HeartRateRecord) (w : Workout)
    (zone_ranges : List (String × ℤ × ℤ)) : List (String × ℚ) :=
  let workout_hrs := hr_records.filter (fun hr => inWorkoutWindow w hr.timestamp)
  if workout_hrs = [] then zone_ranges.map (fun z => (z.1, (0 : ℚ)))
  else
    let sorted := List.insertionSort tsLE workout_hrs
    (sorted.zip sorted.tail).foldl (zoneStep zone_ranges)
      (zone_ranges.map (fun z => (z.1, (0 : ℚ))))

/-- Minutes a list of adjacent pairs attributes to the zone called `name`,
written the way spec.md §4.3 describes the loop: each pair contributes its
whole elapsed time to the first zone containing the earlier value, and
contributes nothing when no zone matches. -/
def pairContrib (zone_ranges : List (String × ℤ × ℤ)) (name : String)
    (pairs : List (HeartRateRecord × HeartRateRecord)) : ℚ :=
  (pairs.map (fun p =>
    if zoneFirstMatch zone_ranges p.1.bpm = some name
    then (p.2.timestamp - p.1.timestamp) / 60 else 0)).sum

/-- Spec-side zone minutes: `pairContrib` over the adjacent pairs of the
sorted in-window sample list. -/
def specZoneMinutes (zone_ranges : List (String × ℤ × ℤ))
    (sorted : List HeartRateRecord) (name : String) : ℚ :=
  pairContrib zone_ranges name (sorted.zip sorted.tail)

/-- Sum of all per-zone minute totals returned by `calculate_hr_zone_time`. -/
def zoneTotalsSum (hr_records : List HeartRateRecord) (w : Workout)
    (zone_ranges : List (String × ℤ × ℤ)) : ℚ :=
  ((calculate_hr_zone_time hr_records w zone_ranges).map Prod.snd).sum

/-- Timestamp of the last element of the non-empty list `x :: xs`. -/
def lastTimestamp (x : HeartRateRecord) (xs : List HeartRateRecord) : ℚ :=
  match xs with
  | [] => x.timestamp
  | y :: ys => lastTimestamp y ys

/-- Elapsed minutes between the earliest and latest in-window samples (0 when
fewer than two samples are in the window). -/
def elapsedSpanMinutes (hr_records : List HeartRateRecord) (w : Workout) : ℚ :=
  match workoutHrsSorted hr_records w with
  | [] => 0
  | x :: xs => (lastTimestamp x xs - x.timestamp) / 60

/-- Python `int(...)` truncation toward zero, applied to a rational. -/
def pyInt (q : ℚ) : ℤ :=
  if 0 ≤ q then ⌊q⌋ else ⌈q⌉

/-- analyzer.py `calculate_hr_zones`, lines 69-74: derive the BPM table from a
reference maximum heart rate and fractional bounds.  The upper bound is the
open-ended sentinel 999 exactly when the configured fraction is at least 1.0,
and `int(max_heart_rate * max_pct)` otherwise.  (The rest of the function
accumulates per-workout zone times into `HeartRateZone` objects and is not
needed by the claims.) -/
def calculate_hr_zones_ranges (max_heart_rate : ℤ)
    (zone_definitions : List (String × ℚ × ℚ)) : List (String × ℤ × ℤ) :=
  zone_definitions.map (fun z =>
    (z.1, pyInt ((max_heart_rate : ℚ) * z.2.1),
      if z.2.2 < 1 then pyInt ((max_heart_rate : ℚ) * z.2.2) else 999))

/-- Python `d[k] = v` on a dict modelled as an insertion-ordered association
list: replace in place when the key exists, append otherwise. -/
def dictInsert (d : List (ℚ × ℚ)) (k : ℚ) (v : ℚ) : List (ℚ × ℚ) :=
  if d.any (fun p => decide (p.1 = k)) then
    d.map (fun p => if p.1 = k then (k, v) else p)
  else d ++ [(k, v)]

/-- One `<Record>` element as read by `extract_distance_and_calories`. -/
structure RawRecord where
  rtype : String
  timestamp : ℚ
  value : ℚ
  unit : String
  deriving Repr, DecidableEq

/-- parser.py lines 298-306: distance unit normalization. -/
def normalizeDistanceValue (value : ℚ) (unit : String) : ℚ :=
  if unit = "mi" then value * (160934 / 100000)
  else if unit = "m" then value / 1000
  else value

/-- parser.py lines 327-335: energy unit normalization. -/
def normalizeEnergyValue (value : ℚ) (unit : String) : ℚ :=
  if unit = "Cal" then value
  else if unit = "cal" then value / 1000
  else value

/-- The optional date-range filter of the extraction functions: skip when a
start bound exists and the timestamp is before it, or an end bound exists and
the timestamp is after it. -/
def inExtractionRange (start_date end_date : Option ℚ) (t : ℚ) : Bool :=
  (match start_date with
   | some s => decide (s ≤ t)
   | none => true) &&
  (match end_date with
   | some e => decide (t ≤ e)
   | none => true)

/-- Processing of one record by `extract_distance_and_calories`. -/
def extractStep (start_date end_date : Option ℚ)
    (acc : List (ℚ × ℚ) × List (ℚ × ℚ)) (r : RawRecord) :
    List (ℚ × ℚ) × List (ℚ × ℚ) :=
  if r.rtype = "HKQuantityTypeIdentifierDistanceCycling" then
    if inExtractionRange start_date end_date r.timestamp then
      (dictInsert acc.1 r.timestamp (normalizeDistanceValue r.value r.unit), acc.2)
    else acc
  else if r.rtype = "HKQuantityTypeIdentifierActiveEnergyBurned" then
    if inExtractionRange start_date end_date r.timestamp then
      (acc.1, dictInsert acc.2 r.timestamp (normalizeEnergyValue r.value r.unit))
    else acc
  else acc

/-- parser.py `extract_distance_and_calories`: a single pass over the archive
records accumulating the two timestamp-keyed dicts. -/
def extract_distance_and_calories (records : List RawRecord)
    (start_date end_date : Option ℚ) : List (ℚ × ℚ) × List (ℚ × ℚ) :=
  records.foldl (extractStep start_date end_date) ([], [])

/-- Sum of the values of the dict entries whose timestamp falls in the
workout's inclusive window (the generator-expression sums of
`enrich_workouts_with_distance_calories`). -/
def windowSum (w : Workout) (records : List (ℚ × ℚ)) : ℚ :=
  ((records.filter (fun p => inWorkoutWindow w p.1)).map Prod.snd).sum

/-- parser.py `enrich_workouts_with_distance_calories`, restricted to one
workout: a positive in-window sum replaces the stored value, anything else
leaves it untouched (`if workout_distance > 0`). -/
def enrich_workout_with_distance_calories (w : Workout)
    (distance_records calorie_records : List (ℚ × ℚ)) : Workout :=
  let workout_distance := windowSum w distance_records
  let workout_calories := windowSum w calorie_records
  let w1 := if workout_distance > 0 then { w with distance_miles := workout_distance } else w
  if workout_calories > 0 then { w1 with calories := workout_calories } else w1

/-- parser.py `enrich_workouts_with_distance_calories` over the workout list. -/
def enrich_workouts_with_distance_calories (workouts : List Workout)
    (distance_records calorie_records : List (ℚ × ℚ)) : List Workout :=
  workouts.map
    (fun w => enrich_workout_with_distance_calories w distance_records calorie_records)

/-- The attributes of one `<Workout>` element consumed by parser.py
`extract_workouts` (lines 58-96). -/
structure WorkoutElem where
  startDate : ℚ
  endDate : ℚ
  duration : Option ℚ
  totalDistance : Option ℚ
  distanceUnit : String
  totalEnergyBurned : Option ℚ
  sourceName : String
  workoutActivityType : String
  deriving Repr, DecidableEq

/-- Construction of a `Workout` from one element in `extract_workouts`:
duration falls back to `(end - start)` in minutes when no explicit duration
attribute is present, distance is unit-normalized, and the dataclass
`__post_init__` clamps run at the end. -/
def parse_workout_elem (e : WorkoutElem) : Workout :=
  let duration : ℚ :=
    match e.duration with
    | some d => d
    | none => (e.endDate - e.startDate) / 60
  let distance : ℚ :=
    match e.totalDistance with
    | some d => if e.distanceUnit = "mi" then d * (160934 / 100000) else d
    | none => 0
  let calories : ℚ :=
    match e.totalEnergyBurned with
    | some c => c
    | none => 0
  Workout.post_init
    { start_date := e.startDate, end_date := e.endDate,
      duration_minutes := duration, distance_miles := distance,
      calories := calories, source_name := e.sourceName,
      workout_type := e.workoutActivityType }

/-- The (10 distance, 15 minutes) workout of the ratio-of-sums example. -/
def shortRide : Workout :=
  { start_date := 0, end_date := 900, duration_minutes := 15,
    distance_miles := 10, calories := 0 }

/-- The (10 distance, 45 minutes) workout of the ratio-of-sums example. -/
def longRide : Workout :=
  { start_date := 1000, end_date := 3700, duration_minutes := 45,
    distance_miles := 10, calories := 0 }

/-- A workout with elevation data, for the aggregation witnesses. -/
def elevRide : Workout :=
  { start_date := 0, end_date := 3600, duration_minutes := 60,
    distance_miles := 12, calories := 500, elevation_gain_ft := some 120 }

/-- A workout without elevation data, for the aggregation witnesses. -/
def flatRide : Workout :=
  { start_date := 4000, end_date := 5800, duration_minutes := 30,
    distance_miles := 3, calories := 200 }

/-- The 30-minute workout window of the spec's zone-time example. -/
def zoneExampleWorkout : Workout :=
  { start_date := 0, end_date := 1800, duration_minutes := 30,
    distance_miles := 5, calories := 250 }

/-- The spec's zone-time samples: t0(100), t0+10m(130), t0+20m(160), t0+30m(140). -/
def zoneExampleSamples : List HeartRateRecord :=
  [{ timestamp := 0, bpm := 100 }, { timestamp := 600, bpm := 130 },
   { timestamp := 1200, bpm := 160 }, { timestamp := 1800, bpm := 140 }]

/-- The spec's example zone table Zone2=[90,120), Zone3=[120,150), Zone4=[150,180). -/
def zoneExampleTable : List (String × ℤ × ℤ) :=
  [("Zone2", 90, 120), ("Zone3", 120, 150), ("Zone4", 150, 180)]

/-- Two samples sharing one timestamp, both outside every configured zone:
the degenerate input refuting the equality condition claimed in C10. -/
def degenSamples : List HeartRateRecord :=
  [{ timestamp := 0, bpm := 50 }, { timestamp := 0, bpm := 50 }]

/-- Single zone table whose range misses the degenerate samples. -/
def degenZones : List (String × ℤ × ℤ) :=
  [("Z", 100, 200)]

/-- Workout window containing the degenerate samples. -/
def degenWorkout : Workout :=
  { start_date := 0, end_date := 100, duration_minutes := 2,
    distance_miles := 0, calories := 0 }

/-- The spec's heart-rate correlation samples for a [0,1800] window:
10:05(120), 10:15(135), 10:25(140) in-window, 10:35(110) outside. -/
def hrExampleSamples : List HeartRateRecord :=
  [{ timestamp := 300, bpm := 120 }, { timestamp := 900, bpm := 135 },
   { timestamp := 1500, bpm := 140 }, { timestamp := 2100, bpm := 110 }]

/-- A workout that already carries distance 5 and calories 400 before
distance/calorie correlation runs. -/
def preloadedWorkout : Workout :=
  { start_date := 0, end_date := 3600, duration_minutes := 60,
    distance_miles := 5, calories := 400 }

/-- First archive distance record at timestamp 100 (value 1, unit left as-is). -/
def dupDistanceRec1 : RawRecord :=
  { rtype := "HKQuantityTypeIdentifierDistanceCycling", timestamp := 100,
    value := 1, unit := "km" }

/-- Second archive distance record bearing the same timestamp 100 (value 2). -/
def dupDistanceRec2 : RawRecord :=
  { rtype := "HKQuantityTypeIdentifierDistanceCycling", timestamp := 100,
    value := 2, unit := "km" }

/-- Workout element with an explicit duration attribute and a negative
distance attribute, exercising both branches checked by C8. -/
def sampleWorkoutElem : WorkoutElem :=
  { startDate := 0, endDate := 930, duration := some (31/2),
    totalDistance := some (-4), distanceUnit := "mi",
    totalEnergyBurned := some 250, sourceName := "Apple Watch",
    workoutActivityType := "HKWorkoutActivityTypeCycling" }

/-- Workout element without a duration attribute. -/
def noDurationElem : WorkoutElem :=
  { startDate := 0, endDate := 1800, duration := none,
    totalDistance := none, distanceUnit := "",
    totalEnergyBurned := none, sourceName := "Apple Watch",
    workoutActivityType := "HKWorkoutActivityTypeCycling" }

/-! Field-level unfolding lemmas for `calculate_stats` on a non-empty group. -/

theorem calculate_stats_avg_speed_mph (w : Workout) (ws : List Workout) :
    (calculate_stats (w :: ws)).avg_speed_mph =
      if 0 < ((w :: ws).map Workout.duration_minutes).sum / 60 then
        ((w :: ws).map Workout.distance_miles).sum /
          (((w :: ws).map Workout.duration_minutes).sum / 60)
      else 0 :=
  rfl

theorem calculate_stats_total_elevation (w : Workout) (ws : List Workout) :
    (calculate_stats (w :: ws)).total_elevation_gain_ft =
      ((w :: ws).filterMap Workout.elevation_gain_ft).sum :=
  rfl

theorem calculate_stats_avg_distance (w : Workout) (ws : List Workout) :
    (calculate_stats (w :: ws)).avg_distance_miles =
      if 0 < (w :: ws).length then
        ((w :: ws).map Workout.distance_miles).sum / ((w :: ws).length : ℚ)
      else 0 :=
  rfl

theorem calculate_stats_avg_duration (w : Workout) (ws : List Workout) :
    (calculate_stats (w :: ws)).avg_duration_minutes =
      if 0 < (w :: ws).length then
        ((w :: ws).map Workout.duration_minutes).sum / ((w :: ws).length : ℚ)
      else 0 :=
  rfl

theorem calculate_stats_avg_calories (w : Workout) (ws : List Workout) :
    (calculate_stats (w :: ws)).avg_calories =
      if 0 < (w :: ws).length then
        ((w :: ws).map Workout.calories).sum / ((w :: ws).length : ℚ)
      else 0 :=
  rfl

theorem calculate_stats_avg_elevation (w : Workout) (ws : List Workout) :
    (calculate_stats (w :: ws)).avg_elevation_gain_ft =
      if 0 < (w :: ws).length ∧ (w :: ws).filter (fun x => x.elevation_gain_ft.isSome) ≠ [] then
        (((w :: ws).filter (fun x => x.elevation_gain_ft.isSome)).filterMap
            Workout.elevation_gain_ft).sum /
          (((w :: ws).filter (fun x => x.elevation_gain_ft.isSome)).length : ℚ)
      else 0 :=
  rfl

/-- Restricting to the workouts that carry an elevation value and then
extracting those values is the same as extracting them directly. -/
theorem filterMap_elevation_filter (l : List Workout) :
    (l.filter (fun x => x.elevation_gain_ft.isSome)).filterMap Workout.elevation_gain_ft =
      l.filterMap Workout.elevation_gain_ft := by
  induction l with
  | nil => rfl
  | cons w ws ih =>
    cases h : w.elevation_gain_ft with
    | none => simp [List.filter_cons, List.filterMap_cons, h, ih]
    | some v => simp [List.filter_cons, List.filterMap_cons, h, ih]

/-- Claim C7: aggregating an empty workout collection returns a Summary in
which every numeric field holds its default/zero value; as a total function
it cannot raise. -/
theorem claim_C7 :
    calculate_stats [] = ({} : WorkoutSummary) ∧
    (calculate_stats []).total_workouts = 0 ∧
    (calculate_stats []).total_distance_miles = 0 ∧
    (calculate_stats []).total_duration_minutes = 0 ∧
    (calculate_stats []).total_calories = 0 ∧
    (calculate_stats []).total_elevation_gain_ft = 0 ∧
    (calculate_stats []).avg_distance_miles = 0 ∧
    (calculate_stats []).avg_duration_minutes = 0 ∧
    (calculate_stats []).avg_speed_mph = 0 ∧
    (calculate_stats []).avg_calories = 0 ∧
    (calculate_stats []).avg_elevation_gain_ft = 0 ∧
    (calculate_stats []).max_distance_miles = 0 ∧
    (calculate_stats []).max_duration_minutes = 0 ∧
    (calculate_stats []).max_elevation_gain_ft = 0 :=
  ⟨rfl, rfl, rfl, rfl, rfl, rfl, rfl, rfl, rfl, rfl, rfl, rfl, rfl, rfl⟩

/-- Claim C2: for a group with positive total duration the aggregated average
speed is the group's total distance divided by its total duration in hours
(ratio of sums); on the (10, 15 min) and (10, 45 min) example it is 20, while
the mean of the per-workout speeds is 80/3 ≈ 26.67 ≠ 20. -/
theorem claim_C2 :
    (∀ workouts : List Workout,
        0 < (workouts.map Workout.duration_minutes).sum →
        (calculate_stats workouts).avg_speed_mph =
          (workouts.map Workout.distance_miles).sum /
            ((workouts.map Workout.duration_minutes).sum / 60)) ∧
    (calculate_stats [shortRide, longRide]).avg_speed_mph = 20 ∧
    (shortRide.avg_speed_mph + longRide.avg_speed_mph) / 2 = 80 / 3 ∧
    (80 / 3 : ℚ) ≠ 20 := by
  have hmain : ∀ workouts : List Workout,
      0 < (workouts.map Workout.duration_minutes).sum →
      (calculate_stats workouts).avg_speed_mph =
        (workouts.map Workout.distance_miles).sum /
          ((workouts.map Workout.duration_minutes).sum / 60) := by
    intro ws h
    match ws with
    | [] => simp at h
    | w :: l =>
      rw [calculate_stats_avg_speed_mph, if_pos]
      exact div_pos h (by norm_num)
  refine ⟨hmain, ?_, ?_, by norm_num⟩
  · rw [hmain [shortRide, longRide] (by norm_num [shortRide, longRide])]
    norm_num [shortRide, longRide]
  · norm_num [shortRide, longRide, Workout.avg_speed_mph, Workout.duration_hours]

/-- Witness for C2 at the concrete two-workout group. -/
theorem claim_C2_witness :
    (calculate_stats [shortRide, longRide]).avg_speed_mph =
      (([shortRide, longRide].map Workout.distance_miles).sum /
        (([shortRide, longRide].map Workout.duration_minutes).sum / 60)) :=
  claim_C2.1 [shortRide, longRide] (by norm_num [shortRide, longRide])

/-- Claim C6: for a non-empty group, the elevation total sums only the
workouts carrying an elevation value, the elevation average divides that
present-only sum by the count of workouts that have elevation, and the
distance/duration/calorie averages divide by the full member count. -/
theorem claim_C6 (workouts : List Workout) (h : workouts ≠ []) :
    (calculate_stats workouts).total_elevation_gain_ft =
      (workouts.filterMap Workout.elevation_gain_ft).sum ∧
    (workouts.filter (fun x => x.elevation_gain_ft.isSome) ≠ [] →
      (calculate_stats workouts).avg_elevation_gain_ft =
        (workouts.filterMap Workout.elevation_gain_ft).sum /
          ((workouts.filter (fun x => x.elevation_gain_ft.isSome)).length : ℚ)) ∧
    (workouts.filter (fun x => x.elevation_gain_ft.isSome) = [] →
      (calculate_stats workouts).avg_elevation_gain_ft = 0) ∧
    (calculate_stats workouts).avg_distance_miles =
      (workouts.map Workout.distance_miles).sum / (workouts.length : ℚ) ∧
    (calculate_stats workouts).avg_duration_minutes =
      (workouts.map Workout.duration_minutes).sum / (workouts.length : ℚ) ∧
    (calculate_stats workouts).avg_calories =
      (workouts.map Workout.calories).sum / (workouts.length : ℚ) := by
  match workouts with
  | [] => exact absurd rfl h
  | w :: ws =>
    refine ⟨calculate_stats_total_elevation w ws, ?_, ?_, ?_, ?_, ?_⟩
    · intro hne
      rw [calculate_stats_avg_elevation, if_pos ⟨by simp, hne⟩, filterMap_elevation_filter]
    · intro hnil
      rw [calculate_stats_avg_elevation, if_neg]
      intro hc
      exact hc.2 hnil
    · rw [calculate_stats_avg_distance, if_pos (by simp)]
    · rw [calculate_stats_avg_duration, if_pos (by simp)]
    · rw [calculate_stats_avg_calories, if_pos (by simp)]

/-- Witness for C6 at a concrete group of one elevated and one flat workout. -/
theorem claim_C6_witness :
    (calculate_stats [elevRide, flatRide]).total_elevation_gain_ft = 120 ∧
    (calculate_stats [elevRide, flatRide]).avg_elevation_gain_ft = 120 ∧
    (calculate_stats [elevRide, flatRide]).avg_distance_miles = 15 / 2 := by
  have h := claim_C6 [elevRide, flatRide] (by simp)
  refine ⟨h.1.trans ?_, (h.2.1 ?_).trans ?_, h.2.2.2.1.trans ?_⟩
  · norm_num [elevRide, flatRide, List.filterMap_cons]
  · simp [elevRide, flatRide, List.filter_cons]
  · norm_num [elevRide, flatRide, List.filterMap_cons, List.filter_cons]
  · norm_num [elevRide, flatRide]

/-- Claim C4 counterexample: the claim says a non-zero in-window sum replaces
the stored distance, but the code only replaces on a strictly positive sum.
With pre-existing distance 5 and a single in-window sample of value -1 the
sum is -1 ≠ 0, yet the stored distance remains 5. -/
theorem claim_C4_counterexample :
    ¬ (windowSum preloadedWorkout [(10, -1)] ≠ 0 →
        (enrich_workout_with_distance_calories preloadedWorkout [(10, -1)] []).distance_miles =
          windowSum preloadedWorkout [(10, -1)]) := by
  intro hcl
  have h1 : windowSum preloadedWorkout [(10, -1)] = -1 := by
    norm_num [windowSum, preloadedWorkout, inWorkoutWindow, List.filter]
  have h2 := hcl (by rw [h1]; norm_num)
  rw [h1] at h2
  have h3 : (enrich_workout_with_distance_calories preloadedWorkout [(10, -1)] []).distance_miles
      = 5 := by
    norm_num [enrich_workout_with_distance_calories, windowSum, preloadedWorkout,
      inWorkoutWindow, List.filter]
  rw [h3] at h2
  norm_num at h2

/-- Claim C4 (amended): a strictly positive in-window sum replaces the
workout's distance (resp. calories) value; a zero, negative or empty sum
leaves the pre-existing value untouched — in particular a workout with
pre-existing distance 5.0 and an in-window sample sum of 0 still has
distance 5.0 afterwards. -/
theorem claim_C4 (w : Workout) (distance_records calorie_records : List (ℚ × ℚ)) :
    (0 < windowSum w distance_records →
      (enrich_workout_with_distance_calories w distance_records calorie_records).distance_miles =
        windowSum w distance_records) ∧
    (¬ 0 < windowSum w distance_records →
      (enrich_workout_with_distance_calories w distance_records calorie_records).distance_miles =
        w.distance_miles) ∧
    (0 < windowSum w calorie_records →
      (enrich_workout_with_distance_calories w distance_records calorie_records).calories =
        windowSum w calorie_records) ∧
    (¬ 0 < windowSum w calorie_records →
      (enrich_workout_with_distance_calories w distance_records calorie_records).calories =
        w.calories) := by
  by_cases hd : 0 < windowSum w distance_records <;>
    by_cases hc : 0 < windowSum w calorie_records <;>
    refine ⟨fun h1 => ?_, fun h2 => ?_, fun h3 => ?_, fun h4 => ?_⟩ <;>
    first
      | exact absurd hd h2
      | exact absurd hc h4
      | exact absurd h1 hd
      | exact absurd h3 hc
      | simp [enrich_workout_with_distance_calories, gt_iff_lt, hd, hc]

/-- Witness for C4: the don't-overwrite-with-zero example — pre-existing
distance 5, the only distance sample lies outside the window, so the
in-window sum is 0 and distance stays 5. -/
theorem claim_C4_witness :
    (enrich_workout_with_distance_calories preloadedWorkout [(5000, 3)] []).distance_miles = 5 := by
  have hsum : windowSum preloadedWorkout [(5000, 3)] = 0 := by
    norm_num [windowSum, preloadedWorkout, inWorkoutWindow, List.filter]
  have h := (claim_C4 preloadedWorkout [(5000, 3)] []).2.1 (by rw [hsum]; norm_num)
  rw [h]
  norm_num [preloadedWorkout]

/-- Claim C8: a workout's duration is the explicitly provided duration when
one is present and otherwise the (end - start) delta in minutes, in both
cases clamped at 0; after construction distance and duration are non-negative
and negative inputs are clamped to 0. -/
theorem claim_C8 :
    (∀ (e : WorkoutElem) (d : ℚ), e.duration = some d →
        (parse_workout_elem e).duration_minutes = if d < 0 then 0 else d) ∧
    (∀ e : WorkoutElem, e.duration = none →
        (parse_workout_elem e).duration_minutes =
          if (e.endDate - e.startDate) / 60 < 0 then 0
          else (e.endDate - e.startDate) / 60) ∧
    (∀ e : WorkoutElem,
        0 ≤ (parse_workout_elem e).distance_miles ∧
        0 ≤ (parse_workout_elem e).duration_minutes) ∧
    (∀ w : Workout,
        0 ≤ (Workout.post_init w).distance_miles ∧
        0 ≤ (Workout.post_init w).duration_minutes ∧
        (w.distance_miles < 0 → (Workout.post_init w).distance_miles = 0) ∧
        (w.duration_minutes < 0 → (Workout.post_init w).duration_minutes = 0)) := by
  have hpost : ∀ w : Workout,
      0 ≤ (Workout.post_init w).distance_miles ∧
      0 ≤ (Workout.post_init w).duration_minutes ∧
      (w.distance_miles < 0 → (Workout.post_init w).distance_miles = 0) ∧
      (w.duration_minutes < 0 → (Workout.post_init w).duration_minutes = 0) := by
    intro w
    refine ⟨?_, ?_, fun h => by simp [Workout.post_init, h], fun h => by simp [Workout.post_init, h]⟩
    · by_cases hlt : w.distance_miles < 0
      · simp [Workout.post_init, hlt]
      · simp only [Workout.post_init, if_neg hlt]
        exact le_of_not_lt hlt
    · by_cases hlt : w.duration_minutes < 0
      · simp [Workout.post_init, hlt]
      · simp only [Workout.post_init, if_neg hlt]
        exact le_of_not_lt hlt
  refine ⟨?_, ?_, ?_, hpost⟩
  · intro e d hd
    show (Workout.post_init _).duration_minutes = _
    unfold Workout.post_init
    simp [parse_workout_elem, hd]
  · intro e hd
    show (Workout.post_init _).duration_minutes = _
    unfold Workout.post_init
    simp [parse_workout_elem, hd]
  · intro e
    exact ⟨(hpost _).1, (hpost _).2.1⟩

/-- Witness for C8: an element with an explicit duration attribute of 31/2
minutes keeps it, an element without one falls back to the 30-minute
start/end delta, and the sample element's negative distance is clamped. -/
theorem claim_C8_witness :
    (parse_workout_elem sampleWorkoutElem).duration_minutes = 31 / 2 ∧
    (parse_workout_elem noDurationElem).duration_minutes = 30 ∧
    (parse_workout_elem sampleWorkoutElem).distance_miles = 0 := by
  refine ⟨?_, ?_, ?_⟩
  · rw [claim_C8.1 sampleWorkoutElem (31 / 2) rfl]
    norm_num
  · rw [claim_C8.2.1 noDurationElem rfl]
    norm_num [noDurationElem]
  · norm_num [parse_workout_elem, sampleWorkoutElem, Workout.post_init]

/-- Claim C5 counterexample: the claim says every derived zone table has an
open-ended top zone regardless of the configured upper fraction.  With max
heart rate 185 and a single (hence top) zone of fractions (0.9, 0.95) the
derived range is [166, 175): the value 180 is at or above the lower bound 166
yet matches no zone, so the top zone is not open-ended. -/
theorem claim_C5_counterexample :
    calculate_hr_zones_ranges 185 [("Zone 5", 9 / 10, 19 / 20)] = [("Zone 5", 166, 175)] ∧
    (166 : ℚ) ≤ 180 ∧
    zoneContains (166, 175) 180 = false ∧
    zoneFirstMatch [("Zone 5", 166, 175)] 180 = none := by
  have h1 : calculate_hr_zones_ranges 185 [("Zone 5", 9 / 10, 19 / 20)] =
      [("Zone 5", 166, 175)] := by
    norm_num [calculate_hr_zones_ranges, pyInt]
  have h2 : zoneContains (166, 175) 180 = false := by
    norm_num [zoneContains]
  refine ⟨h1, by norm_num, h2, ?_⟩
  simp [zoneFirstMatch, List.find?, h2]

/-- Claim C5 (amended): the top (last-configured) zone's upper bound is the
sentinel 999 exactly when its configured upper fraction is at least 1.0 (and
`int(max_hr * fraction)` otherwise); when the fraction is at least 1.0, every
sample value at or above the top zone's lower bound and below 999 lies in the
top zone's range. -/
theorem claim_C5 (max_heart_rate : ℤ) (pre : List (String × ℚ × ℚ))
    (z : String × ℚ × ℚ) (hfrac : 1 ≤ z.2.2) :
    (calculate_hr_zones_ranges max_heart_rate (pre ++ [z])).getLast? =
      some (z.1, pyInt ((max_heart_rate : ℚ) * z.2.1), 999) ∧
    ∀ bpm : ℚ, ((pyInt ((max_heart_rate : ℚ) * z.2.1) : ℤ) : ℚ) ≤ bpm → bpm < 999 →
      zoneContains (pyInt ((max_heart_rate : ℚ) * z.2.1), 999) bpm = true := by
  constructor
  · unfold calculate_hr_zones_ranges
    rw [List.map_append, List.map_cons, List.map_nil, List.getLast?_concat,
      if_neg (not_lt.mpr hfrac)]
  · intro bpm h1 h2
    unfold zoneContains
    refine decide_eq_true ⟨h1, ?_⟩
    exact lt_of_lt_of_le h2 (by norm_num)

/-- Witness for C5: the config-style table whose top fraction is 1.0 derives
the 166..999 top range, in which a value of 700 lies. -/
theorem claim_C5_witness :
    (calculate_hr_zones_ranges 185 [("Zone 4", 4 / 5, 9 / 10), ("Zone 5", 9 / 10, 1)]).getLast? =
      some ("Zone 5", 166, 999) ∧
    zoneContains (166, 999) 700 = true := by
  have h := claim_C5 185 [("Zone 4", 4 / 5, 9 / 10)] ("Zone 5", 9 / 10, 1) (by norm_num)
  simp only [List.cons_append, List.nil_append] at h
  have hlo : pyInt ((185 : ℤ) * ((9 : ℚ) / 10)) = 166 := by
    norm_num [pyInt]
  constructor
  · rw [h.1]
    norm_num [pyInt]
  · have h2 := h.2 700 (by norm_num [pyInt]) (by norm_num)
    rw [hlo] at h2
    exact h2

/-- Python `max(b :: bs)` (a fold of binary max) is an element of the list. -/
theorem foldl_max_mem (b : ℚ) (bs : List ℚ) : bs.foldl max b ∈ b :: bs := by
  induction bs generalizing b with
  | nil => simp
  | cons c cs ih =>
    rw [List.foldl_cons]
    rcases max_choice b c with hm | hm <;> rw [hm]
    · rcases List.mem_cons.mp (ih b) with h1 | h1
      · rw [h1]
        exact List.mem_cons_self _ _
      · exact List.mem_cons_of_mem _ (List.mem_cons_of_mem _ h1)
    · rcases List.mem_cons.mp (ih c) with h1 | h1
      · rw [h1]
        exact List.mem_cons_of_mem _ (List.mem_cons_self _ _)
      · exact List.mem_cons_of_mem _ (List.mem_cons_of_mem _ h1)

/-- Python `max(b :: bs)` bounds every element of the list from above. -/
theorem foldl_max_ub (b : ℚ) (bs : List ℚ) : ∀ x ∈ b :: bs, x ≤ bs.foldl max b := by
  induction bs generalizing b with
  | nil =>
    intro x hx
    rw [List.mem_singleton] at hx
    simp [hx]
  | cons c cs ih =>
    intro x hx
    rw [List.foldl_cons]
    have hseed : max b c ≤ cs.foldl max (max b c) :=
      ih (max b c) (max b c) (List.mem_cons_self _ _)
    rcases List.mem_cons.mp hx with rfl | hx1
    · exact le_trans (le_max_left x c) hseed
    · rcases List.mem_cons.mp hx1 with rfl | hx2
      · exact le_trans (le_max_right b x) hseed
      · exact ih (max b c) x (List.mem_cons_of_mem _ hx2)

/-- Python `min(b :: bs)` is an element of the list. -/
theorem foldl_min_mem (b : ℚ) (bs : List ℚ) : bs.foldl min b ∈ b :: bs := by
  induction bs generalizing b with
  | nil => simp
  | cons c cs ih =>
    rw [List.foldl_cons]
    rcases min_choice b c with hm | hm <;> rw [hm]
    · rcases List.mem_cons.mp (ih b) with h1 | h1
      · rw [h1]
        exact List.mem_cons_self _ _
      · exact List.mem_cons_of_mem _ (List.mem_cons_of_mem _ h1)
    · rcases List.mem_cons.mp (ih c) with h1 | h1
      · rw [h1]
        exact List.mem_cons_of_mem _ (List.mem_cons_self _ _)
      · exact List.mem_cons_of_mem _ (List.mem_cons_of_mem _ h1)

/-- Python `min(b :: bs)` bounds every element of the list from below. -/
theorem foldl_min_lb (b : ℚ) (bs : List ℚ) : ∀ x ∈ b :: bs, bs.foldl min b ≤ x := by
  induction bs generalizing b with
  | nil =>
    intro x hx
    rw [List.mem_singleton] at hx
    simp [hx]
  | cons c cs ih =>
    intro x hx
    rw [List.foldl_cons]
    have hseed : cs.foldl min (min b c) ≤ min b c :=
      ih (min b c) (min b c) (List.mem_cons_self _ _)
    rcases List.mem_cons.mp hx with rfl | hx1
    · exact le_trans hseed (min_le_left x c)
    · rcases List.mem_cons.mp hx1 with rfl | hx2
      · exact le_trans hseed (min_le_right b x)
      · exact ih (min b c) x (List.mem_cons_of_mem _ hx2)

/-- Claim C3: heart-rate correlation selects exactly the samples inside the
workout's inclusive window; when some exist, the workout's average is the
mean of their bpm values and its max/min are their greatest/least bpm; when
none exist, the workout is returned untouched, so unset fields stay unset
rather than becoming zero. -/
theorem claim_C3 (w : Workout) (hr_records : List HeartRateRecord) :
    (hr_records.filter (fun hr => inWorkoutWindow w hr.timestamp) = [] →
      match_heart_rate_to_workout hr_records w = w) ∧
    (∀ b bs,
      (hr_records.filter (fun hr => inWorkoutWindow w hr.timestamp)).map
          HeartRateRecord.bpm = b :: bs →
      ∃ mx mn,
        match_heart_rate_to_workout hr_records w =
          { w with
            avg_heart_rate := some ((b :: bs).sum / ((b :: bs).length : ℚ)),
            max_heart_rate := some mx,
            min_heart_rate := some mn } ∧
        mx ∈ b :: bs ∧ (∀ x ∈ b :: bs, x ≤ mx) ∧
        mn ∈ b :: bs ∧ (∀ x ∈ b :: bs, mn ≤ x)) := by
  have hperm :
      List.Perm ((List.insertionSort tsLE hr_records).filter
          (fun hr => inWorkoutWindow w hr.timestamp))
        (hr_records.filter (fun hr => inWorkoutWindow w hr.timestamp)) :=
    (List.perm_insertionSort tsLE hr_records).filter _
  constructor
  · intro h
    have hnil : (List.insertionSort tsLE hr_records).filter
        (fun hr => inWorkoutWindow w hr.timestamp) = [] := by
      rw [h] at hperm
      exact hperm.eq_nil
    simp [match_heart_rate_to_workout, hnil]
  · intro b bs hsel
    have hpermb :
        List.Perm (((List.insertionSort tsLE hr_records).filter
            (fun hr => inWorkoutWindow w hr.timestamp)).map HeartRateRecord.bpm)
          (b :: bs) := by
      rw [← hsel]
      exact hperm.map _
    rcases hmap : ((List.insertionSort tsLE hr_records).filter
        (fun hr => inWorkoutWindow w hr.timestamp)).map HeartRateRecord.bpm with _ | ⟨c, cs⟩
    · rw [hmap] at hpermb
      exact absurd hpermb.length_eq (by simp)
    · rw [hmap] at hpermb
      refine ⟨cs.foldl max c, cs.foldl min c, ?_, ?_, ?_, ?_, ?_⟩
      · have hsum : (c :: cs).sum = (b :: bs).sum := hpermb.sum_eq
        have hlen : (c :: cs).length = (b :: bs).length := hpermb.length_eq
        rw [match_heart_rate_to_workout]
        simp only [hmap, hsum, hlen]
      · exact hpermb.mem_iff.mp (foldl_max_mem c cs)
      · intro x hx
        exact foldl_max_ub c cs x (hpermb.mem_iff.mpr hx)
      · exact hpermb.mem_iff.mp (foldl_min_mem c cs)
      · intro x hx
        exact foldl_min_lb c cs x (hpermb.mem_iff.mpr hx)

/-- Witness for C3: the spec's example — window [0, 1800] with samples
120, 135, 140 inside and 110 outside gives avg 395/3 ≈ 131.67, max 140,
min 120, untouched by the out-of-window sample. -/
theorem claim_C3_witness :
    (match_heart_rate_to_workout hrExampleSamples zoneExampleWorkout).avg_heart_rate =
      some (395 / 3) ∧
    (match_heart_rate_to_workout hrExampleSamples zoneExampleWorkout).max_heart_rate =
      some 140 ∧
    (match_heart_rate_to_workout hrExampleSamples zoneExampleWorkout).min_heart_rate =
      some 120 := by
  have hsel : hrExampleSamples.filter
      (fun hr => inWorkoutWindow zoneExampleWorkout hr.timestamp) =
        [{ timestamp := 300, bpm := 120 }, { timestamp := 900, bpm := 135 },
         { timestamp := 1500, bpm := 140 }] := by
    norm_num [hrExampleSamples, zoneExampleWorkout, inWorkoutWindow, List.filter]
  obtain ⟨mx, mn, heq, hmx, hmxub, hmn, hmnlb⟩ :=
    (claim_C3 zoneExampleWorkout hrExampleSamples).2 120 [135, 140] (by rw [hsel]; rfl)
  have hmx140 : mx = 140 := by
    have hub := hmxub 140 (by norm_num)
    simp only [List.mem_cons, List.not_mem_nil, or_false] at hmx
    rcases hmx with h | h | h <;> subst h <;> first | rfl | linarith
  have hmn120 : mn = 120 := by
    have hlb := hmnlb 120 (by norm_num)
    simp only [List.mem_cons, List.not_mem_nil, or_false] at hmn
    rcases hmn with h | h | h <;> subst h <;> first | rfl | linarith
  rw [heq, hmx140, hmn120]
  refine ⟨?_, rfl, rfl⟩
  norm_num

/-- Inserting into a dict keeps its key list duplicate-free. -/
theorem dictInsert_keys_nodup (d : List (ℚ × ℚ)) (k v : ℚ)
    (h : (d.map Prod.fst).Nodup) : ((dictInsert d k v).map Prod.fst).Nodup := by
  unfold dictInsert
  split_ifs with hmem
  · have hkeys : (d.map (fun p => if p.1 = k then (k, v) else p)).map Prod.fst =
        d.map Prod.fst := by
      rw [List.map_map]
      apply List.map_congr_left
      intro p hp
      by_cases hpk : p.1 = k
      · simp [hpk]
      · simp [hpk]
    rw [hkeys]
    exact h
  · have hk : k ∉ d.map Prod.fst := by
      intro hcontra
      apply hmem
      rw [List.any_eq_true]
      obtain ⟨p, hp, hpk⟩ := List.mem_map.mp hcontra
      exact ⟨p, hp, decide_eq_true hpk⟩
    rw [List.map_append]
    simp [List.nodup_append, h, hk]

/-- The extraction fold keeps both dicts' key lists duplicate-free. -/
theorem extract_foldl_keys_nodup (records : List RawRecord) (sd ed : Option ℚ) :
    ∀ acc : List (ℚ × ℚ) × List (ℚ × ℚ),
      (acc.1.map Prod.fst).Nodup → (acc.2.map Prod.fst).Nodup →
      (((records.foldl (extractStep sd ed) acc).1.map Prod.fst).Nodup ∧
        ((records.foldl (extractStep sd ed) acc).2.map Prod.fst).Nodup) := by
  induction records with
  | nil => exact fun acc h1 h2 => ⟨h1, h2⟩
  | cons r rs ih =>
    intro acc h1 h2
    rw [List.foldl_cons]
    apply ih
    · unfold extractStep
      split_ifs <;> first | exact h1 | exact dictInsert_keys_nodup _ _ _ h1
    · unfold extractStep
      split_ifs <;> first | exact h2 | exact dictInsert_keys_nodup _ _ _ h2

/-- Claim C9: distance and energy extraction returns timestamp-keyed
mappings — each returned association list has duplicate-free keys, so the
later in-window correlation sums at most one value per distinct timestamp.
On an archive holding two distance samples with the same timestamp only the
last-read value (2) survives, and a workout covering that timestamp is
enriched with distance 2, not 1 + 2. -/
theorem claim_C9 :
    (∀ (records : List RawRecord) (sd ed : Option ℚ),
        (((extract_distance_and_calories records sd ed).1.map Prod.fst).Nodup ∧
          ((extract_distance_and_calories records sd ed).2.map Prod.fst).Nodup)) ∧
    extract_distance_and_calories [dupDistanceRec1, dupDistanceRec2] none none =
      ([(100, 2)], []) ∧
    (enrich_workout_with_distance_calories preloadedWorkout [(100, 2)] []).distance_miles = 2 := by
  refine ⟨?_, ?_, ?_⟩
  · intro records sd ed
    exact extract_foldl_keys_nodup records sd ed ([], []) (by simp) (by simp)
  · norm_num [extract_distance_and_calories, extractStep, dupDistanceRec1, dupDistanceRec2,
      inExtractionRange, dictInsert, normalizeDistanceValue, List.foldl]
    rw [if_neg (show ¬ ("km" : String) = "mi" by decide),
      if_neg (show ¬ ("km" : String) = "m" by decide)]
  · have hsum : windowSum preloadedWorkout [(100, 2)] = 2 := by
      norm_num [windowSum, preloadedWorkout, inWorkoutWindow, List.filter]
    have h : (enrich_workout_with_distance_calories preloadedWorkout [(100, 2)] []).distance_miles
        = windowSum preloadedWorkout [(100, 2)] := by
      norm_num [enrich_workout_with_distance_calories, hsum, windowSum, preloadedWorkout,
        inWorkoutWindow, List.filter]
    rw [h, hsum]

/-- One zone-time loop iteration on a table whose value under each name is
given by `c`: the matched zone's entry grows by the pair's elapsed minutes. -/
theorem zoneStep_on_table (zr : List (String × ℤ × ℤ)) (c : String → ℚ)
    (p : HeartRateRecord × HeartRateRecord) :
    zoneStep zr (zr.map (fun z => (z.1, c z.1))) p =
      zr.map (fun z => (z.1, c z.1 +
        if zoneFirstMatch zr p.1.bpm = some z.1
        then (p.2.timestamp - p.1.timestamp) / 60 else 0)) := by
  rcases h : zoneFirstMatch zr p.1.bpm with _ | name
  · unfold zoneStep
    rw [h]
    apply List.map_congr_left
    intro z hz
    simp
  · unfold zoneStep
    rw [h]
    show addZoneTime (zr.map (fun z => (z.1, c z.1))) name
        ((p.2.timestamp - p.1.timestamp) / 60) = _
    unfold addZoneTime
    rw [List.map_map]
    apply List.map_congr_left
    intro z hz
    by_cases hzn : z.1 = name
    · simp [Function.comp, hzn]
    · have hne : ¬ (some name : Option String) = some z.1 := by
        intro hcontra
        exact hzn (Option.some.inj hcontra).symm
      simp [Function.comp, hzn, hne]

/-- Folding the zone-time loop over any pair list turns the table whose
values are `c` into the table whose values are `c` plus each zone's
attributed minutes. -/
theorem foldl_zoneStep (zr : List (String × ℤ × ℤ))
    (pairs : List (HeartRateRecord × HeartRateRecord)) :
    ∀ c : String → ℚ,
      pairs.foldl (zoneStep zr) (zr.map (fun z => (z.1, c z.1))) =
        zr.map (fun z => (z.1, c z.1 + pairContrib zr z.1 pairs)) := by
  induction pairs with
  | nil =>
    intro c
    rw [List.foldl_nil]
    apply List.map_congr_left
    intro z hz
    simp [pairContrib]
  | cons p ps ih =>
    intro c
    rw [List.foldl_cons, zoneStep_on_table]
    rw [ih (fun n => c n +
      if zoneFirstMatch zr p.1.bpm = some n then (p.2.timestamp - p.1.timestamp) / 60 else 0)]
    apply List.map_congr_left
    intro z hz
    simp only [pairContrib, List.map_cons, List.sum_cons]
    rw [add_assoc]

/-- Characterization of `calculate_hr_zone_time`: the result is the configured
table where each zone carries the minutes the spec-side step-hold formula
attributes to its name over the sorted in-window samples. -/
theorem calculate_hr_zone_time_eq (hr_records : List HeartRateRecord) (w : Workout)
    (zone_ranges : List (String × ℤ × ℤ)) :
    calculate_hr_zone_time hr_records w zone_ranges =
      zone_ranges.map (fun z =>
        (z.1, specZoneMinutes zone_ranges (workoutHrsSorted hr_records w) z.1)) := by
  by_cases h : hr_records.filter (fun hr => inWorkoutWindow w hr.timestamp) = []
  · simp only [calculate_hr_zone_time, workoutHrsSorted, specZoneMinutes, h, if_pos]
    apply List.map_congr_left
    intro z hz
    simp [pairContrib, List.insertionSort]
  · simp only [calculate_hr_zone_time, workoutHrsSorted, specZoneMinutes, h, if_neg,
      not_false_iff]
    have h2 := foldl_zoneStep zone_ranges
      ((List.insertionSort tsLE
          (hr_records.filter (fun hr => inWorkoutWindow w hr.timestamp))).zip
        (List.insertionSort tsLE
          (hr_records.filter (fun hr => inWorkoutWindow w hr.timestamp))).tail)
      (fun _ => (0 : ℚ))
    simp only [zero_add] at h2
    exact h2

/-- Adjacent pairs of a sorted list are ordered by timestamp. -/
theorem zip_tail_le (l : List HeartRateRecord) (hs : List.Sorted tsLE l) :
    ∀ p ∈ l.zip l.tail, p.1.timestamp ≤ p.2.timestamp := by
  induction l with
  | nil =>
    intro p hp
    simp at hp
  | cons x xs ih =>
    cases xs with
    | nil =>
      intro p hp
      simp at hp
    | cons y ys =>
      intro p hp
      rw [List.tail_cons, List.zip_cons_cons] at hp
      rcases List.mem_cons.mp hp with rfl | hp2
      · exact List.rel_of_sorted_cons hs y (List.mem_cons_self _ _)
      · exact ih hs.of_cons p hp2

/-- Telescoping: the elapsed minutes of the adjacent pairs of a list sum to
the span between its first and last timestamps, in minutes. -/
theorem sum_pair_diffs (xs : List HeartRateRecord) :
    ∀ x : HeartRateRecord,
      (((x :: xs).zip xs).map (fun p => (p.2.timestamp - p.1.timestamp) / 60)).sum =
        (lastTimestamp x xs - x.timestamp) / 60 := by
  induction xs with
  | nil =>
    intro x
    simp [lastTimestamp, sub_self]
  | cons y ys ih =>
    intro x
    rw [List.zip_cons_cons, List.map_cons, List.sum_cons, ih y]
    show _ = (lastTimestamp y ys - x.timestamp) / 60
    rw [div_add_div_same]
    congr 1
    ring

/-- Summing `t` guarded by name-match over a duplicate-free name list that
contains the name yields exactly `t`. -/
theorem sum_name_ite (names : List String) (hnd : names.Nodup) (n : String)
    (hn : n ∈ names) (t : ℚ) :
    (names.map (fun m => if (some n : Option String) = some m then t else 0)).sum = t := by
  induction names with
  | nil => simp at hn
  | cons m ms ih =>
    rw [List.map_cons, List.sum_cons]
    rcases List.mem_cons.mp hn with rfl | hmem
    · rw [if_pos rfl]
      have hz : (ms.map (fun x => if (some n : Option String) = some x then t else 0)).sum
          = 0 := by
        apply List.sum_eq_zero
        intro q hq
        obtain ⟨x, hx, hxq⟩ := List.mem_map.mp hq
        rw [← hxq, if_neg]
        intro hcontra
        exact (List.nodup_cons.mp hnd).1 ((Option.some.inj hcontra) ▸ hx)
      rw [hz, add_zero]
    · have hne : ¬ (some n : Option String) = some m := by
        intro hcontra
        exact (List.nodup_cons.mp hnd).1 ((Option.some.inj hcontra) ▸ hmem)
      rw [if_neg hne, zero_add]
      exact ih (List.nodup_cons.mp hnd).2 hmem

/-- With duplicate-free zone names, summing every zone's attributed minutes
counts each pair's elapsed time once when its earlier value matches some zone
and zero times when it matches none. -/
theorem zone_contrib_totals (zr : List (String × ℤ × ℤ))
    (hnd : (zr.map Prod.fst).Nodup)
    (pairs : List (HeartRateRecord × HeartRateRecord)) :
    (zr.map (fun z => pairContrib zr z.1 pairs)).sum =
      (pairs.map (fun p =>
        if zoneFirstMatch zr p.1.bpm = none then 0
        else (p.2.timestamp - p.1.timestamp) / 60)).sum := by
  induction pairs with
  | nil =>
    rw [List.map_nil, List.sum_nil]
    apply List.sum_eq_zero
    intro q hq
    obtain ⟨z, hz, hzq⟩ := List.mem_map.mp hq
    rw [← hzq]
    simp [pairContrib]
  | cons p ps ih =>
    have hsplit : zr.map (fun z => pairContrib zr z.1 (p :: ps)) =
        zr.map (fun z =>
          (if zoneFirstMatch zr p.1.bpm = some z.1
            then (p.2.timestamp - p.1.timestamp) / 60 else 0)
          + pairContrib zr z.1 ps) := by
      apply List.map_congr_left
      intro z hz
      simp [pairContrib]
    have hshare : (zr.map (fun z =>
        if zoneFirstMatch zr p.1.bpm = some z.1
        then (p.2.timestamp - p.1.timestamp) / 60 else 0)).sum =
        (if zoneFirstMatch zr p.1.bpm = none then 0
          else (p.2.timestamp - p.1.timestamp) / 60) := by
      rcases hm : zoneFirstMatch zr p.1.bpm with _ | n
      · rw [if_pos rfl]
        apply List.sum_eq_zero
        intro q hq
        obtain ⟨z, hz, hzq⟩ := List.mem_map.mp hq
        rw [← hzq, if_neg]
        simp
      · rw [if_neg (by simp)]
        have hnmem : n ∈ zr.map Prod.fst := by
          unfold zoneFirstMatch at hm
          rcases hfind : zr.find? (fun z => zoneContains z.2 p.1.bpm) with _ | z0
          · rw [hfind] at hm
            exact Option.noConfusion hm
          · rw [hfind] at hm
            have hz01 : z0.1 = n := Option.some.inj hm
            have hz0 : z0 ∈ zr := List.mem_of_find?_eq_some hfind
            exact hz01 ▸ List.mem_map_of_mem Prod.fst hz0
        have h2 := sum_name_ite (zr.map Prod.fst) hnd n hnmem
          ((p.2.timestamp - p.1.timestamp) / 60)
        rw [List.map_map] at h2
        exact h2
    rw [hsplit, List.sum_map_add, hshare, ih, List.map_cons, List.sum_cons]

/-- Projecting the minute column out of a name-keyed table. -/
theorem table_snd_sum (zr : List (String × ℤ × ℤ)) (f : String → ℚ) :
    ((zr.map (fun z => (z.1, f z.1))).map Prod.snd).sum =
      (zr.map (fun z => f z.1)).sum := by
  rw [List.map_map]
  rfl

/-- Dropping some non-negative terms of a sum never increases it, and keeps
it equal exactly when every dropped term is zero. -/
theorem sum_skip_le (P : List (HeartRateRecord × HeartRateRecord))
    (dt : HeartRateRecord × HeartRateRecord → ℚ)
    (c : HeartRateRecord × HeartRateRecord → Prop) [DecidablePred c]
    (h : ∀ p ∈ P, 0 ≤ dt p) :
    (P.map (fun p => if c p then 0 else dt p)).sum ≤ (P.map dt).sum ∧
    ((P.map (fun p => if c p then 0 else dt p)).sum = (P.map dt).sum ↔
      ∀ p ∈ P, dt p = 0 ∨ ¬ c p) := by
  induction P with
  | nil => simp
  | cons p ps ih =>
    obtain ⟨ihle, ihiff⟩ := ih (fun q hq => h q (List.mem_cons_of_mem _ hq))
    have hp0 : 0 ≤ dt p := h p (List.mem_cons_self _ _)
    rw [List.map_cons, List.sum_cons, List.map_cons, List.sum_cons]
    by_cases hc : c p
    · rw [if_pos hc, zero_add]
      refine ⟨by linarith, ?_, ?_⟩
      · intro heq
        have hS : (ps.map fun q => if c q then 0 else dt q).sum = (ps.map dt).sum := by
          linarith
        have hdtp : dt p = 0 := by linarith
        intro q hq
        rcases List.mem_cons.mp hq with rfl | hq2
        · exact Or.inl hdtp
        · exact ihiff.mp hS q hq2
      · intro hall
        have hdtp : dt p = 0 := by
          rcases hall p (List.mem_cons_self _ _) with h0 | hnc
          · exact h0
          · exact absurd hc hnc
        have hT : (ps.map fun q => if c q then 0 else dt q).sum = (ps.map dt).sum :=
          ihiff.mpr (fun q hq => hall q (List.mem_cons_of_mem _ hq))
        rw [hT, hdtp, zero_add]
    · rw [if_neg hc]
      refine ⟨add_le_add_left ihle (dt p), ?_, ?_⟩
      · intro heq
        have hST : (ps.map fun q => if c q then 0 else dt q).sum = (ps.map dt).sum := by
          linarith
        intro q hq
        rcases List.mem_cons.mp hq with rfl | hq2
        · exact Or.inr hc
        · exact ihiff.mp hST q hq2
      · intro hall
        have hT := ihiff.mpr (fun q hq => hall q (List.mem_cons_of_mem _ hq))
        rw [hT]

/-- Claim C1: for every sample list, workout window and ordered zone table,
zone time equals the table in which each zone carries, over the adjacent
pairs of the in-window samples sorted by timestamp, the whole elapsed minutes
of the pairs whose earlier value first matches that zone — unmatched earlier
values contribute nothing and the final sample opens no trailing interval;
on the spec's example this gives exactly Zone2/Zone3/Zone4 = 10 minutes each. -/
theorem claim_C1 :
    (∀ (hr_records : List HeartRateRecord) (w : Workout)
        (zone_ranges : List (String × ℤ × ℤ)),
        calculate_hr_zone_time hr_records w zone_ranges =
          zone_ranges.map (fun z =>
            (z.1, specZoneMinutes zone_ranges (workoutHrsSorted hr_records w) z.1))) ∧
    calculate_hr_zone_time zoneExampleSamples zoneExampleWorkout zoneExampleTable =
      [("Zone2", 10), ("Zone3", 10), ("Zone4", 10)] := by
  refine ⟨calculate_hr_zone_time_eq, ?_⟩
  rw [calculate_hr_zone_time_eq]
  have hsorted : workoutHrsSorted zoneExampleSamples zoneExampleWorkout =
      zoneExampleSamples := by rfl
  have h100 : zoneFirstMatch [("Zone2", 90, 120), ("Zone3", 120, 150), ("Zone4", 150, 180)]
      (100 : ℚ) = some "Zone2" := by rfl
  have h130 : zoneFirstMatch [("Zone2", 90, 120), ("Zone3", 120, 150), ("Zone4", 150, 180)]
      (130 : ℚ) = some "Zone3" := by rfl
  have h160 : zoneFirstMatch [("Zone2", 90, 120), ("Zone3", 120, 150), ("Zone4", 150, 180)]
      (160 : ℚ) = some "Zone4" := by rfl
  rw [hsorted]
  show zoneExampleTable.map
      (fun z => (z.1, specZoneMinutes zoneExampleTable zoneExampleSamples z.1)) = _
  have hzip : zoneExampleSamples.zip zoneExampleSamples.tail =
      [({ timestamp := 0, bpm := 100 }, { timestamp := 600, bpm := 130 }),
       ({ timestamp := 600, bpm := 130 }, { timestamp := 1200, bpm := 160 }),
       ({ timestamp := 1200, bpm := 160 }, { timestamp := 1800, bpm := 140 })] := by rfl
  simp only [zoneExampleTable, List.map_cons, List.map_nil, specZoneMinutes, pairContrib,
    hzip]
  norm_num [h100, h130, h160]
  simp

/-- Witness exercising the universally quantified part of C1 at the concrete
example inputs. -/
theorem claim_C1_witness :
    calculate_hr_zone_time zoneExampleSamples zoneExampleWorkout zoneExampleTable =
      zoneExampleTable.map (fun z =>
        (z.1, specZoneMinutes zoneExampleTable
          (workoutHrsSorted zoneExampleSamples zoneExampleWorkout) z.1)) :=
  claim_C1.1 zoneExampleSamples zoneExampleWorkout zoneExampleTable

/-- Claim C10 counterexample: the claim says the per-zone totals sum to the
in-window span exactly when every adjacent pair's earlier value lies in some
zone.  With two samples at the same timestamp whose value 50 matches no zone,
the sum (0) equals the span (0) although the adjacent pair's earlier value
matches no configured zone. -/
theorem claim_C10_counterexample :
    zoneTotalsSum degenSamples degenWorkout degenZones =
      elapsedSpanMinutes degenSamples degenWorkout ∧
    ({ timestamp := 0, bpm := 50 }, ({ timestamp := 0, bpm := 50 } : HeartRateRecord)) ∈
      (workoutHrsSorted degenSamples degenWorkout).zip
        (workoutHrsSorted degenSamples degenWorkout).tail ∧
    zoneFirstMatch degenZones 50 = none := by
  have hws : workoutHrsSorted degenSamples degenWorkout = degenSamples := by rfl
  have hzf : zoneFirstMatch degenZones 50 = none := by rfl
  have hzip : degenSamples.zip degenSamples.tail =
      [({ timestamp := 0, bpm := 50 }, { timestamp := 0, bpm := 50 })] := by rfl
  refine ⟨?_, ?_, hzf⟩
  · have htot : zoneTotalsSum degenSamples degenWorkout degenZones = 0 := by
      unfold zoneTotalsSum
      rw [calculate_hr_zone_time_eq, hws]
      simp only [degenZones, List.map_cons, List.map_nil, specZoneMinutes, pairContrib,
        hzip, hzf]
      norm_num
    have hel : elapsedSpanMinutes degenSamples degenWorkout = 0 := by
      unfold elapsedSpanMinutes
      rw [hws]
      show ((lastTimestamp { timestamp := 0, bpm := 50 }
        [{ timestamp := 0, bpm := 50 }] - (0 : ℚ)) / 60) = 0
      norm_num [lastTimestamp]
    rw [htot, hel]
  · rw [hws, hzip]
    exact List.mem_singleton.mpr rfl

/-- Claim C10 (amended): with a duplicate-free zone table (zone tables are
Python dicts, so names cannot repeat), every per-zone total is non-negative
and their sum never exceeds the elapsed minutes between the earliest and
latest in-window samples, with equality exactly when every adjacent pair
either spans zero elapsed time or has its earlier value inside some
configured zone. -/
theorem claim_C10 (hr_records : List HeartRateRecord) (w : Workout)
    (zone_ranges : List (String × ℤ × ℤ))
    (hnd : (zone_ranges.map Prod.fst).Nodup) :
    (∀ q ∈ calculate_hr_zone_time hr_records w zone_ranges, 0 ≤ q.2) ∧
    zoneTotalsSum hr_records w zone_ranges ≤ elapsedSpanMinutes hr_records w ∧
    (zoneTotalsSum hr_records w zone_ranges = elapsedSpanMinutes hr_records w ↔
      ∀ p ∈ (workoutHrsSorted hr_records w).zip (workoutHrsSorted hr_records w).tail,
        p.1.timestamp = p.2.timestamp ∨ ¬ zoneFirstMatch zone_ranges p.1.bpm = none) := by
  have hchar := calculate_hr_zone_time_eq hr_records w zone_ranges
  have hsorted0 : List.Sorted tsLE (workoutHrsSorted hr_records w) := by
    show List.Sorted tsLE (List.insertionSort tsLE _)
    exact List.sorted_insertionSort tsLE _
  rcases hL : workoutHrsSorted hr_records w with _ | ⟨x, xs⟩
  · rw [hL] at hchar
    have htot0 : zoneTotalsSum hr_records w zone_ranges = 0 := by
      unfold zoneTotalsSum
      rw [hchar, List.map_map]
      apply List.sum_eq_zero
      intro t ht
      obtain ⟨z, hz, rfl⟩ := List.mem_map.mp ht
      show specZoneMinutes zone_ranges [] z.1 = 0
      simp [specZoneMinutes, pairContrib]
    have hel0 : elapsedSpanMinutes hr_records w = 0 := by
      unfold elapsedSpanMinutes
      rw [hL]
    refine ⟨?_, ?_, ?_⟩
    · intro q hq
      rw [hchar] at hq
      obtain ⟨z, hz, rfl⟩ := List.mem_map.mp hq
      show 0 ≤ specZoneMinutes zone_ranges [] z.1
      simp [specZoneMinutes, pairContrib]
    · rw [htot0, hel0]
    · rw [htot0, hel0]
      simp
  · rw [hL] at hchar hsorted0
    have hdt : ∀ p ∈ (x :: xs).zip xs, 0 ≤ (p.2.timestamp - p.1.timestamp) / 60 := by
      intro p hp
      have hle := zip_tail_le (x :: xs) hsorted0 p (by rw [List.tail_cons]; exact hp)
      exact div_nonneg (sub_nonneg.mpr hle) (by norm_num)
    have htot : zoneTotalsSum hr_records w zone_ranges =
        (((x :: xs).zip xs).map (fun p =>
          if zoneFirstMatch zone_ranges p.1.bpm = none then 0
          else (p.2.timestamp - p.1.timestamp) / 60)).sum := by
      unfold zoneTotalsSum
      rw [hchar, List.map_map]
      have h1 : zone_ranges.map
          (Prod.snd ∘ fun z => (z.1, specZoneMinutes zone_ranges (x :: xs) z.1)) =
          zone_ranges.map (fun z => pairContrib zone_ranges z.1 ((x :: xs).zip xs)) := rfl
      rw [h1, zone_contrib_totals zone_ranges hnd]
    have hel : elapsedSpanMinutes hr_records w =
        (((x :: xs).zip xs).map (fun p => (p.2.timestamp - p.1.timestamp) / 60)).sum := by
      unfold elapsedSpanMinutes
      rw [hL]
      exact (sum_pair_diffs xs x).symm
    have hmain := sum_skip_le ((x :: xs).zip xs)
      (fun p => (p.2.timestamp - p.1.timestamp) / 60)
      (fun p => zoneFirstMatch zone_ranges p.1.bpm = none) hdt
    have hconv : ∀ p ∈ (x :: xs).zip xs,
        ((p.2.timestamp - p.1.timestamp) / 60 = 0 ↔ p.1.timestamp = p.2.timestamp) := by
      intro p hp
      rw [div_eq_zero_iff]
      constructor
      · rintro (h0 | h0)
        · exact (sub_eq_zero.mp h0).symm
        · norm_num at h0
      · intro h0
        exact Or.inl (by rw [h0, sub_self])
    refine ⟨?_, ?_, ?_⟩
    · intro q hq
      rw [hchar] at hq
      obtain ⟨z, hz, rfl⟩ := List.mem_map.mp hq
      show 0 ≤ specZoneMinutes zone_ranges (x :: xs) z.1
      apply List.sum_nonneg
      intro t ht
      simp only [List.tail_cons] at ht
      obtain ⟨p, hp, rfl⟩ := List.mem_map.mp ht
      split_ifs
      · exact hdt p hp
      · exact le_refl 0
    · rw [htot, hel]
      exact hmain.1
    · rw [htot, hel, List.tail_cons]
      constructor
      · intro heq p hp
        rcases hmain.2.mp heq p hp with h0 | hc
        · exact Or.inl ((hconv p hp).mp h0)
        · exact Or.inr hc
      · intro hall
        apply hmain.2.mpr
        intro p hp
        rcases hall p hp with h0 | hc
        · exact Or.inl ((hconv p hp).mpr h0)
        · exact Or.inr hc

/-- Witness for C10 at the spec's example inputs, whose zone names are
duplicate-free. -/
theorem claim_C10_witness :
    (∀ q ∈ calculate_hr_zone_time zoneExampleSamples zoneExampleWorkout zoneExampleTable,
      0 ≤ q.2) ∧
    zoneTotalsSum zoneExampleSamples zoneExampleWorkout zoneExampleTable ≤
      elapsedSpanMinutes zoneExampleSamples zoneExampleWorkout := by
  have h := claim_C10 zoneExampleSamples zoneExampleWorkout zoneExampleTable (by decide)
  exact ⟨h.1, h.2.1⟩

end AppleHealth
